import Mathlib

/-!
# Verification of the ImageMosaic frontend session core

Shallow embedding of the client-side session store, the chunked analyze
pipeline, and the generation orchestrator of the ImageMosaic repository.

Embedding conventions:
* A `File` is represented by its byte size (a `Nat`), the only attribute the
  modelled logic inspects (`f.size` drives the batch partitioning).
* Display handles ("object URLs") are represented by `Nat` values drawn from a
  fresh counter; `URL.createObjectURL` allocates the next counter value and
  `URL.revokeObjectURL` appends the handle to a revocation log.
* A `Blob` is represented by an opaque `Nat`.
* Server responses are modelled by an oracle `svc : Nat → Option (List
  PaletteEntry)` giving, for the i-th batch request, either `none` (a non-ok
  HTTP response, which the code turns into a thrown error) or `some pal`
  (the decoded `json.palette` of an ok response).
* A thrown JS exception unwinds without undoing store writes, so the analyze
  pipeline returns the mutated store together with a success flag instead of
  an `Except` that would drop the store.
* `Math.round(100*k/total)` on the exactly representable small ratios that
  occur here equals round-half-up on rationals, embedded as
  `(200*k + total) / (2*total)` over `Nat`.
* The random `sessionId` and the float `overlayOpacity` carry no logic used
  by any claim and are omitted from the state record.
-/

/-- Palette entry returned by the analyze endpoint: tile index plus the
tile's average color channels. Mirrors `PaletteEntry` in the store module. -/
structure PaletteEntry where
  index : Nat
  r : Nat
  g : Nat
  b : Nat
  deriving DecidableEq

/-- Blending style, mirrors `type Style = "A" | "B" | "C"`. -/
inductive Style where
  | A
  | B
  | C
  deriving DecidableEq

/-- The session store state (`useMosaicStore`), restricted to the fields the
verified claims touch.  `previewData` is kept opaque (`Option Nat`). -/
structure Store where
  mainImageFile : Option Nat
  mainImagePreviewUrl : Option Nat
  subImageFiles : List Nat
  subImagePreviews : List Nat
  palette : List PaletteEntry
  isAnalyzing : Bool
  analyzeProgress : Nat
  tileSize : Nat
  style : Style
  allowRepeats : Bool
  shuffleSources : Bool
  a4Output : Bool
  previewData : Option Nat
  isPreviewLoading : Bool
  isGenerating : Bool
  resultUrl : Option Nat
  resultBlob : Option Nat
  deriving DecidableEq

/-- The store's initial values from `create<MosaicState>`. -/
def initStore : Store :=
  { mainImageFile := none
    mainImagePreviewUrl := none
    subImageFiles := []
    subImagePreviews := []
    palette := []
    isAnalyzing := false
    analyzeProgress := 0
    tileSize := 40
    style := Style.A
    allowRepeats := true
    shuffleSources := false
    a4Output := false
    previewData := none
    isPreviewLoading := false
    isGenerating := false
    resultUrl := none
    resultBlob := none }

/-- `const CHUNK_BYTES = 5 * 1024 * 1024` — 5 MiB batch threshold. -/
def CHUNK_BYTES : Nat := 5 * 1024 * 1024

/-- The batch-splitting loop of `analyze` in `useAnalyzer.ts`: accumulate
files into `current` (with running byte size `size`); as soon as the running
size reaches `CHUNK_BYTES`, close the batch; a trailing non-empty partial
batch is appended at the end. -/
def mkBatchesAux : List Nat → List Nat → Nat → List (List Nat)
  | [], current, _ => if current.isEmpty then [] else [current]
  | f :: rest, current, size =>
    let current' := current ++ [f]
    let size' := size + f
    if CHUNK_BYTES ≤ size' then current' :: mkBatchesAux rest [] 0
    else mkBatchesAux rest current' size'

/-- Split a file list into batches by cumulative byte size. -/
def mkBatches (files : List Nat) : List (List Nat) := mkBatchesAux files [] 0

/-- `Math.round(100 * k / total)` for the non-negative rationals produced by
the progress computation: round half up. -/
def round100 (k total : Nat) : Nat := (200 * k + total) / (2 * total)

/-- Outcome of one `analyze()` run: the mutated store, whether the run
completed without throwing, the sequence of `setAnalyzeProgress` updates
issued inside the batch loop, and the number of analyze requests sent. -/
structure AnalyzeOut where
  store : Store
  ok : Bool
  progressLog : List Nat
  requests : Nat
  deriving DecidableEq

/-- The batch loop of `analyze`: for batch `i`, send the request (`svc i`);
a non-ok response throws (store kept as mutated so far, `ok := false`);
an ok response re-indexes the returned palette by the running `globalIndex`
offset, appends it to the local accumulator `acc`, and updates progress.
After the loop, `setPalette(allPalette)` and `setIsAnalyzing(false)` run. -/
def analyzeGo (svc : Nat → Option (List PaletteEntry)) (total : Nat) :
    List (List Nat) → Nat → List PaletteEntry → Nat → Store → List Nat → Nat → AnalyzeOut
  | [], _, acc, _, st, plog, reqs =>
    ⟨{ st with palette := acc, isAnalyzing := false }, true, plog, reqs⟩
  | batch :: rest, i, acc, gIdx, st, plog, reqs =>
    match svc i with
    | none => ⟨st, false, plog, reqs + 1⟩
    | some pal =>
      analyzeGo svc total rest (i + 1)
        (acc ++ pal.map (fun p => { p with index := p.index + gIdx }))
        (gIdx + batch.length)
        { st with analyzeProgress := round100 (i + 1) total }
        (plog ++ [round100 (i + 1) total]) (reqs + 1)

/-- `analyze()` from `useAnalyzer.ts`: early-return on an empty tile list;
otherwise set `isAnalyzing := true`, `analyzeProgress := 0`, split into
batches and run the sequential batch loop. -/
def analyze (svc : Nat → Option (List PaletteEntry)) (st : Store) : AnalyzeOut :=
  if st.subImageFiles.isEmpty then ⟨st, true, [], 0⟩
  else
    analyzeGo svc (mkBatches st.subImageFiles).length (mkBatches st.subImageFiles)
      0 [] 0 { st with isAnalyzing := true, analyzeProgress := 0 } [] 0

/-- Outcome of `handleGenerate`: the mutated store, whether `setError` ran
with a non-null message (the catch branch), and whether the `/api/generate`
request was issued. -/
structure GenOut where
  store : Store
  errored : Bool
  sent : Bool
  deriving DecidableEq

/-- `handleGenerate` from `page.tsx`.  Guard: no-op unless a main image is
set and tiles exist.  If the palette is empty, `await analyze()` first; a
throw there is caught (`setError`) and the `finally` clears `isGenerating`
without ever sending the generate request.  Otherwise `setIsGenerating(true)`
and the generate request fires: `gresp = none` models a non-ok response
(throw caught, prior result untouched), `gresp = some blob` models success
(`setResult(url, blob)` with the fresh display handle `u`). -/
def handleGenerate (svc : Nat → Option (List PaletteEntry)) (gresp : Option Nat)
    (u : Nat) (st : Store) : GenOut :=
  if st.mainImageFile.isNone || st.subImageFiles.isEmpty then ⟨st, false, false⟩
  else
    let a := if st.palette.isEmpty then analyze svc st else ⟨st, true, [], 0⟩
    if a.ok then
      let st2 := { a.store with isGenerating := true }
      match gresp with
      | none => ⟨{ st2 with isGenerating := false }, true, true⟩
      | some blob =>
        ⟨{ st2 with
            resultUrl := some u
            resultBlob := some blob
            isGenerating := false }, false, true⟩
    else
      ⟨{ a.store with isGenerating := false }, true, false⟩

/-- `handleDownload` from `page.tsx`: no-op when `resultBlob` is null, else
download the (possibly stale) blob. Returns the blob downloaded, if any. -/
def handleDownload (st : Store) : Option Nat := st.resultBlob

/-- `const busy = isAnalyzing || isGenerating || isPreviewLoading`. -/
def busy (st : Store) : Bool := st.isAnalyzing || st.isGenerating || st.isPreviewLoading

/-- The store together with display-handle bookkeeping: `counter` is the
next fresh handle (`URL.createObjectURL` allocates `counter, counter+1, …`),
`revoked` logs every `URL.revokeObjectURL` call in order, and `leaked` is a
ghost log recording each handle the code drops from the state without
revoking it (it receives the prior `resultUrl` exactly at the two sites
where the source nulls `resultUrl` without a revoke). -/
structure Sys where
  store : Store
  counter : Nat
  revoked : List Nat
  leaked : List Nat
  deriving DecidableEq

/-- `setMainImageFile` (store version with `revokeUrls`): revoke the prior
main-image handle; with a file, allocate a fresh handle and clear
`previewData`, `resultUrl`, `resultBlob` — note the prior result handle is
dropped without a revoke (ghost-logged in `leaked`); with `null`, clear only
the main image fields. -/
def setMainImageFile (file : Option Nat) (sys : Sys) : Sys :=
  match file with
  | some f =>
    { store := { sys.store with
        mainImageFile := some f
        mainImagePreviewUrl := some sys.counter
        previewData := none
        resultUrl := none
        resultBlob := none }
      counter := sys.counter + 1
      revoked := sys.revoked ++ sys.store.mainImagePreviewUrl.toList
      leaked := sys.leaked ++ sys.store.resultUrl.toList }
  | none =>
    { sys with
      store := { sys.store with mainImageFile := none, mainImagePreviewUrl := none }
      revoked := sys.revoked ++ sys.store.mainImagePreviewUrl.toList }

/-- `setSubImageFiles`: revoke all prior thumbnail handles, allocate handles
for the first `min 200` files, clear palette and preview, and null
`resultUrl` — again without revoking it (ghost-logged), and leaving
`resultBlob` untouched. -/
def setSubImageFiles (files : List Nat) (sys : Sys) : Sys :=
  { store := { sys.store with
      subImageFiles := files
      subImagePreviews := (List.range (min files.length 200)).map (sys.counter + ·)
      palette := []
      previewData := none
      resultUrl := none }
    counter := sys.counter + min files.length 200
    revoked := sys.revoked ++ sys.store.subImagePreviews
    leaked := sys.leaked ++ sys.store.resultUrl.toList }

/-- `addSubImageFiles`: revoke prior thumbnail handles, append the new files,
allocate handles for the first `min 200` of the merged list, clear palette
and preview; the result fields are untouched. -/
def addSubImageFiles (newFiles : List Nat) (sys : Sys) : Sys :=
  { store := { sys.store with
      subImageFiles := sys.store.subImageFiles ++ newFiles
      subImagePreviews :=
        (List.range (min (sys.store.subImageFiles ++ newFiles).length 200)).map
          (sys.counter + ·)
      palette := []
      previewData := none }
    counter := sys.counter + min (sys.store.subImageFiles ++ newFiles).length 200
    revoked := sys.revoked ++ sys.store.subImagePreviews
    leaked := sys.leaked }

/-- `clearSubImages`: revoke thumbnail handles, empty the tile set, clear
palette and preview. -/
def clearSubImages (sys : Sys) : Sys :=
  { sys with
    store := { sys.store with
      subImageFiles := []
      subImagePreviews := []
      palette := []
      previewData := none }
    revoked := sys.revoked ++ sys.store.subImagePreviews }

/-- The generate success path: `URL.createObjectURL(blob)` allocates a fresh
handle, then `setResult(url, blob)` revokes the prior result handle and
stores the new pair. -/
def setResult (blob : Nat) (sys : Sys) : Sys :=
  { store := { sys.store with resultUrl := some sys.counter, resultBlob := some blob }
    counter := sys.counter + 1
    revoked := sys.revoked ++ sys.store.resultUrl.toList
    leaked := sys.leaked }

/-- `reset`: revoke the main-image handle, all thumbnail handles and the
result handle, then clear all session entities (settings are untouched;
the rotated random session id is outside the model). -/
def resetSession (sys : Sys) : Sys :=
  { store := { sys.store with
      mainImageFile := none
      mainImagePreviewUrl := none
      subImageFiles := []
      subImagePreviews := []
      palette := []
      isAnalyzing := false
      analyzeProgress := 0
      previewData := none
      resultUrl := none
      resultBlob := none }
    counter := sys.counter
    revoked := sys.revoked ++ sys.store.mainImagePreviewUrl.toList
      ++ sys.store.subImagePreviews ++ sys.store.resultUrl.toList
    leaked := sys.leaked }

/-- The handle-mutating store actions named by the resource invariant. -/
inductive MAction where
  | setMain (file : Option Nat)
  | setSubs (files : List Nat)
  | addSubs (files : List Nat)
  | clearSubs
  | setRes (blob : Nat)
  | resetAll
  deriving DecidableEq

/-- Apply one action to the system. -/
def step : MAction → Sys → Sys
  | MAction.setMain f, sys => setMainImageFile f sys
  | MAction.setSubs fs, sys => setSubImageFiles fs sys
  | MAction.addSubs fs, sys => addSubImageFiles fs sys
  | MAction.clearSubs, sys => clearSubImages sys
  | MAction.setRes b, sys => setResult b sys
  | MAction.resetAll, sys => resetSession sys

/-- The fresh system: initial store, no handles allocated. -/
def initSys : Sys := ⟨initStore, 0, [], []⟩

/-- Run a sequence of actions from the fresh system. -/
def run (acts : List MAction) : Sys := acts.foldl (fun sys a => step a sys) initSys

/-- The handles referenced by an option field, as a multiset. -/
def optMS (o : Option Nat) : Multiset Nat := (o.toList : Multiset Nat)

/-- All display handles the store currently references: the main-image
handle, the (≤200) thumbnail handles, and the result handle. -/
def handleMS (s : Store) : Multiset Nat :=
  optMS s.mainImagePreviewUrl + (s.subImagePreviews : Multiset Nat) + optMS s.resultUrl

/-- Handle conservation: every allocated handle is accounted for exactly
once — still referenced, revoked, or dropped-without-revoke (leaked). -/
def HandleInv (sys : Sys) : Prop :=
  handleMS sys.store + (sys.revoked : Multiset Nat) + (sys.leaked : Multiset Nat)
    = Multiset.range sys.counter

/-- The spec's claimed handle invariant: the live handles (allocated, not
revoked) are exactly those the store references, and no handle is revoked
twice. -/
def claimedHandleInv (sys : Sys) : Prop :=
  (∀ h, (h < sys.counter ∧ h ∉ sys.revoked) ↔ h ∈ handleMS sys.store)
    ∧ sys.revoked.Nodup

/-- A decoded analyze response obeying the batch-local service contract for
a batch of `k` tiles: one entry per ingested tile, indexed `0 … k-1` in
batch order. -/
def respOk (r : Option (List PaletteEntry)) (k : Nat) : Prop :=
  Option.map (fun pal => pal.map PaletteEntry.index) r = some (List.range k)

instance (r : Option (List PaletteEntry)) (k : Nat) : Decidable (respOk r k) := by
  unfold respOk
  infer_instance

/-! ## Concrete scenarios (used by witnesses and counterexamples) -/

/-- 4 MiB, the tile size in the spec's two-tile scenario. -/
def fourMiB : Nat := 4 * 1024 * 1024

/-- Service oracle returning a batch-local two-entry palette for every
request (the contract response for a two-tile batch). -/
def svcTwoTile : Nat → Option (List PaletteEntry) :=
  fun _ => some [⟨0, 1, 2, 3⟩, ⟨1, 4, 5, 6⟩]

/-- Store holding two 4 MiB tiles. -/
def stTwoTile : Store := { initStore with subImageFiles := [fourMiB, fourMiB] }

/-- Service oracle whose first batch succeeds with a single entry and whose
second request returns a non-ok response. -/
def svcSecondFails : Nat → Option (List PaletteEntry) :=
  fun i => if i = 0 then some [⟨0, 10, 20, 30⟩] else none

/-- Store whose two tiles split into two batches (the first tile alone
reaches the 5 MiB threshold). -/
def stTwoBatches : Store := { initStore with subImageFiles := [6 * 1024 * 1024, 1] }

/-- Generate scenario: main image set, two small tiles, palette empty. -/
def stGenReady : Store :=
  { initStore with mainImageFile := some 9, subImageFiles := [1, 2] }

/-- Failing generate scenario: main image set, tiles split into two batches
so that the second analyze request can fail. -/
def stGenFail : Store :=
  { initStore with mainImageFile := some 9, subImageFiles := [6 * 1024 * 1024, 1] }

/-! ## Batch partitioning -/

lemma mkBatchesAux_flatten :
    ∀ (rest current : List Nat) (size : Nat),
      (mkBatchesAux rest current size).flatten = current ++ rest := by
  intro rest
  induction rest with
  | nil =>
    intro current size
    by_cases hc : current.isEmpty
    · simp [mkBatchesAux, hc, List.isEmpty_iff.mp hc]
    · simp [mkBatchesAux, hc]
  | cons f rest ih =>
    intro current size
    simp only [mkBatchesAux]
    by_cases hcl : CHUNK_BYTES ≤ size + f
    · simp [hcl, ih]
    · simp [hcl, ih]

/-- The greedy batcher is a partition: concatenating the batches gives back
the original file list, in order. -/
lemma mkBatches_flatten (files : List Nat) : (mkBatches files).flatten = files :=
  mkBatchesAux_flatten files [] 0

lemma sum_dropLast_le (l : List Nat) : l.dropLast.sum ≤ l.sum :=
  (List.dropLast_sublist l).sum_le_sum (fun _ _ => Nat.zero_le _)

lemma mkBatchesAux_bound :
    ∀ (rest current : List Nat) (size : Nat),
      size = current.sum → current.sum < CHUNK_BYTES →
      ∀ b ∈ mkBatchesAux rest current size, b ≠ [] ∧ b.dropLast.sum < CHUNK_BYTES := by
  intro rest
  induction rest with
  | nil =>
    intro current size hsz hlt b hb
    by_cases hc : current.isEmpty
    · simp [mkBatchesAux, hc] at hb
    · simp [mkBatchesAux, hc] at hb
      subst hb
      exact ⟨fun h => by simp [h] at hc,
        lt_of_le_of_lt (sum_dropLast_le b) hlt⟩
  | cons f rest ih =>
    intro current size hsz hlt b hb
    simp only [mkBatchesAux] at hb
    subst hsz
    by_cases hcl : CHUNK_BYTES ≤ current.sum + f
    · simp only [hcl, if_true, List.mem_cons] at hb
      rcases hb with hb | hb
      · subst hb
        refine ⟨by simp, ?_⟩
        rw [List.dropLast_concat]
        exact hlt
      · exact ih [] 0 rfl (by simp [CHUNK_BYTES]) b hb
    · simp only [hcl, if_false] at hb
      have hsum : (current ++ [f]).sum = current.sum + f := by simp
      exact ih (current ++ [f]) (current.sum + f) hsum.symm
        (by rw [hsum]; omega) b hb

/-- CLAIM C4 (corrected): for every list of tile byte sizes, the batches are
a valid partition of the tile list (every tile in exactly one batch,
concatenating in original order), every batch is non-empty, and in every
batch the byte total of all tiles but the last is strictly below the 5 MiB
threshold — so a batch can exceed the threshold, but only through its final
tile; the original claim's bound (only singleton batches may exceed the
threshold) is refuted by `spec_c4_counterexample`. -/
theorem spec_c4_batches_partition (files : List Nat) :
    (mkBatches files).flatten = files ∧
    ∀ b ∈ mkBatches files, b ≠ [] ∧ b.dropLast.sum < CHUNK_BYTES :=
  ⟨mkBatches_flatten files,
    mkBatchesAux_bound files [] 0 rfl (by simp [CHUNK_BYTES])⟩

/-- CLAIM C4, original bound refuted: two 3 MiB tiles land in one batch of
total 6 MiB, which exceeds the 5 MiB threshold yet has two tiles. -/
theorem spec_c4_counterexample :
    ¬ (∀ b ∈ mkBatches [3 * 1024 * 1024, 3 * 1024 * 1024],
        CHUNK_BYTES < b.sum → b.length = 1) := by
  decide

/-- Witness for `spec_c4_batches_partition` at a concrete input. -/
theorem spec_c4_batches_partition_witness :
    ((mkBatches [6 * 1024 * 1024, 1]).flatten = [6 * 1024 * 1024, 1]) ∧
      ([6 * 1024 * 1024] ≠ ([] : List Nat) ∧
        ([6 * 1024 * 1024] : List Nat).dropLast.sum < CHUNK_BYTES) :=
  ⟨(spec_c4_batches_partition [6 * 1024 * 1024, 1]).1,
    (spec_c4_batches_partition [6 * 1024 * 1024, 1]).2 [6 * 1024 * 1024] (by decide)⟩

/-! ## Analyze pipeline -/

lemma analyzeGo_untouched_fields (svc : Nat → Option (List PaletteEntry)) (total : Nat) :
    ∀ (bs : List (List Nat)) (i : Nat) (acc : List PaletteEntry) (g : Nat)
      (st : Store) (plog : List Nat) (rq : Nat),
      (analyzeGo svc total bs i acc g st plog rq).store.resultUrl = st.resultUrl ∧
      (analyzeGo svc total bs i acc g st plog rq).store.resultBlob = st.resultBlob ∧
      (analyzeGo svc total bs i acc g st plog rq).store.isPreviewLoading = st.isPreviewLoading ∧
      (analyzeGo svc total bs i acc g st plog rq).store.isGenerating = st.isGenerating := by
  intro bs
  induction bs with
  | nil => intro i acc g st plog rq; simp [analyzeGo]
  | cons b rest ih =>
    intro i acc g st plog rq
    simp only [analyzeGo]
    cases svc i with
    | none => simp
    | some pal => simpa using ih (i + 1) _ _ _ _ _

lemma analyzeGo_fail (svc : Nat → Option (List PaletteEntry)) (total : Nat) :
    ∀ (bs : List (List Nat)) (i : Nat) (acc : List PaletteEntry) (g : Nat)
      (st : Store) (plog : List Nat) (rq : Nat),
      (analyzeGo svc total bs i acc g st plog rq).ok = false →
      (analyzeGo svc total bs i acc g st plog rq).store.palette = st.palette ∧
      (analyzeGo svc total bs i acc g st plog rq).store.isAnalyzing = st.isAnalyzing := by
  intro bs
  induction bs with
  | nil => intro i acc g st plog rq h; simp [analyzeGo] at h
  | cons b rest ih =>
    intro i acc g st plog rq h
    cases hs : svc i with
    | none => simp [analyzeGo, hs]
    | some pal =>
      rw [analyzeGo, hs] at h ⊢
      simpa using ih (i + 1) _ _ _ _ _ (by simpa using h)

/-- On any failed run, `analyze` leaves the store's palette exactly as it
was before the run (partial batch results live only in the local
accumulator and are discarded), and `isAnalyzing` is left stuck at true. -/
lemma analyze_fail (svc : Nat → Option (List PaletteEntry)) (st : Store)
    (h : (analyze svc st).ok = false) :
    (analyze svc st).store.palette = st.palette ∧
    (analyze svc st).store.isAnalyzing = true := by
  by_cases he : st.subImageFiles.isEmpty
  · simp [analyze, he] at h
  · simp only [analyze, he, if_false] at h ⊢
    exact analyzeGo_fail svc _ _ _ _ _ _ _ _ h

/-- `analyze` never touches the result fields nor the other busy flags. -/
lemma analyze_untouched_fields (svc : Nat → Option (List PaletteEntry)) (st : Store) :
    (analyze svc st).store.resultUrl = st.resultUrl ∧
    (analyze svc st).store.resultBlob = st.resultBlob ∧
    (analyze svc st).store.isPreviewLoading = st.isPreviewLoading ∧
    (analyze svc st).store.isGenerating = st.isGenerating := by
  by_cases he : st.subImageFiles.isEmpty
  · simp [analyze, he]
  · simp only [analyze, he, if_false]
    simpa using analyzeGo_untouched_fields svc _ _ _ _ _ _ _ _

lemma analyzeGo_contract (svc : Nat → Option (List PaletteEntry)) (total : Nat) :
    ∀ (bs : List (List Nat)) (i : Nat) (acc : List PaletteEntry)
      (st : Store) (plog : List Nat) (rq : Nat),
      (∀ k, k < bs.length → respOk (svc (i + k)) ((bs.getD k []).length)) →
      acc.map PaletteEntry.index = List.range acc.length →
      (analyzeGo svc total bs i acc acc.length st plog rq).ok = true ∧
      (analyzeGo svc total bs i acc acc.length st plog rq).store.palette.map PaletteEntry.index
        = List.range (acc.length + (bs.map List.length).sum) := by
  intro bs
  induction bs with
  | nil =>
    intro i acc st plog rq _ hacc
    simpa [analyzeGo] using hacc
  | cons b rest ih =>
    intro i acc st plog rq hsvc hacc
    have h0 := hsvc 0 (by simp)
    simp only [Nat.add_zero, List.getD_cons_zero] at h0
    cases hs : svc i with
    | none => rw [hs] at h0; simp [respOk] at h0
    | some pal =>
      rw [hs] at h0
      simp only [respOk, Option.map_some] at h0
      have hpal : pal.map PaletteEntry.index = List.range b.length :=
        Option.some.inj h0
      have hplen : pal.length = b.length := by
        have h1 := congrArg List.length hpal
        simpa using h1
      set acc' := acc ++ pal.map (fun p => { p with index := p.index + acc.length })
        with hacc'
      have hmap1 : (pal.map (fun p => { p with index := p.index + acc.length })).map
          PaletteEntry.index = (pal.map PaletteEntry.index).map (fun n => acc.length + n) := by
        rw [List.map_map, List.map_map]
        exact List.map_congr_left (fun p _ => by simp [Function.comp, Nat.add_comm])
      have hmap : acc'.map PaletteEntry.index = List.range (acc.length + b.length) := by
        rw [hacc', List.map_append, hacc, hmap1, hpal, List.range_add]
      have hlen : acc'.length = acc.length + b.length := by
        simp [hacc', hplen]
      rw [analyzeGo, hs, ← hlen]
      have hrec := ih (i + 1) acc'
        { st with analyzeProgress := round100 (i + 1) total }
        (plog ++ [round100 (i + 1) total]) (rq + 1)
        (fun k hk => by
          have h2 := hsvc (k + 1) (by simpa using Nat.succ_lt_succ hk)
          simpa [Nat.add_comm, Nat.add_assoc, Nat.add_left_comm] using h2)
        (by rw [hmap, hlen])
      refine ⟨hrec.1, ?_⟩
      rw [hrec.2, hlen]
      simp [Nat.add_assoc]

lemma index_of_map_range {P : List PaletteEntry} {n : Nat}
    (hm : P.map PaletteEntry.index = List.range n) :
    ∀ i (h : i < P.length), (P.get ⟨i, h⟩).index = i := by
  intro i h
  have hb : i < (P.map PaletteEntry.index).length := by simpa using h
  have h1 : (P.map PaletteEntry.index).get ⟨i, hb⟩ = (P.get ⟨i, h⟩).index := by
    simp
  rw [← h1]
  have h2 : ∀ j : Fin (P.map PaletteEntry.index).length,
      (P.map PaletteEntry.index).get j = j.val := by
    intro j
    have h3 := List.get_of_eq hm j
    rw [h3]
    simp
  exact h2 ⟨i, hb⟩

/-- CLAIM C1 (confirmed): starting from a store whose palette is empty (the
state in which the orchestrator runs the pipeline), if every batch request
succeeds and each response carries the batch-local palette for exactly the
tiles that batch ingested, then the run completes and the palette written
to the store has one entry per tile with `palette[i].index = i`, aligned to
tile insertion order. -/
theorem spec_c1_palette_aligned (st : Store) (svc : Nat → Option (List PaletteEntry))
    (hpal : st.palette = [])
    (hsvc : ∀ k, k < (mkBatches st.subImageFiles).length →
      respOk (svc k) ((mkBatches st.subImageFiles).getD k []).length) :
    (analyze svc st).ok = true ∧
    (analyze svc st).store.palette.length = st.subImageFiles.length ∧
    ∀ i (h : i < (analyze svc st).store.palette.length),
      ((analyze svc st).store.palette.get ⟨i, h⟩).index = i := by
  have hsum : ((mkBatches st.subImageFiles).map List.length).sum
      = st.subImageFiles.length := by
    rw [← List.length_flatten, mkBatches_flatten]
  by_cases he : st.subImageFiles.isEmpty
  · have he' : st.subImageFiles = [] := List.isEmpty_iff.mp he
    refine ⟨by simp [analyze, he], by simp [analyze, he, hpal, he'], ?_⟩
    intro i h
    simp [analyze, he, hpal] at h
  · have hne : st.subImageFiles.isEmpty = false := by
      simpa using he
    have hgo := analyzeGo_contract svc (mkBatches st.subImageFiles).length
      (mkBatches st.subImageFiles) 0 []
      { st with isAnalyzing := true, analyzeProgress := 0 } [] 0
      (fun k hk => by simpa using hsvc k hk) (by simp)
    simp only [List.length_nil, Nat.zero_add, hsum] at hgo
    have hana : analyze svc st
        = analyzeGo svc (mkBatches st.subImageFiles).length (mkBatches st.subImageFiles)
          0 [] 0 { st with isAnalyzing := true, analyzeProgress := 0 } [] 0 := by
      simp [analyze, hne]
    rw [hana]
    have hplen : (analyzeGo svc (mkBatches st.subImageFiles).length
        (mkBatches st.subImageFiles) 0 [] 0
        { st with isAnalyzing := true, analyzeProgress := 0 } [] 0).store.palette.length
        = st.subImageFiles.length := by
      have h4 := congrArg List.length hgo.2
      simpa using h4
    exact ⟨hgo.1, hplen, index_of_map_range hgo.2⟩

/-- Witness for `spec_c1_palette_aligned`: two small tiles in one batch, a
conforming service response. -/
theorem spec_c1_palette_aligned_witness :
    ({ initStore with subImageFiles := [1, 2] } : Store).palette = [] ∧
    ((analyze svcTwoTile { initStore with subImageFiles := [1, 2] }).ok = true ∧
      (analyze svcTwoTile { initStore with subImageFiles := [1, 2] }).store.palette.length
        = ({ initStore with subImageFiles := [1, 2] } : Store).subImageFiles.length ∧
      ∀ i (h : i < (analyze svcTwoTile
          { initStore with subImageFiles := [1, 2] }).store.palette.length),
        ((analyze svcTwoTile
          { initStore with subImageFiles := [1, 2] }).store.palette.get ⟨i, h⟩).index = i) :=
  ⟨rfl, spec_c1_palette_aligned { initStore with subImageFiles := [1, 2] } svcTwoTile rfl
    (by decide)⟩

/-- CLAIM C3 (corrected): on any failed analyze run the pipeline reports
failure and the store's Palette is left exactly as it was before the run —
the entries from already-succeeded batches live only in the local
accumulator and are discarded, because `setPalette` runs once, after all
batches succeed.  In the 2-batch scenario where batch 2 fails, the palette
stays at its pre-run value (empty) and progress stays at 50.  The original
claim (palette retains batch 1's entries) is refuted by
`spec_c3_counterexample`. -/
theorem spec_c3_fail_palette_unchanged :
    (∀ (st : Store) (svc : Nat → Option (List PaletteEntry)),
      (analyze svc st).ok = false → (analyze svc st).store.palette = st.palette) ∧
    ((analyze svcSecondFails stTwoBatches).ok = false ∧
      (analyze svcSecondFails stTwoBatches).store.palette = stTwoBatches.palette ∧
      (analyze svcSecondFails stTwoBatches).store.analyzeProgress = 50) :=
  ⟨fun st svc h => (analyze_fail svc st h).1, by decide⟩

/-- CLAIM C3, original refuted: with two batches where batch 2 fails, the
store's palette does not retain batch 1's entry — it is still empty. -/
theorem spec_c3_counterexample :
    (analyze svcSecondFails stTwoBatches).store.palette = [] ∧
    ([] : List PaletteEntry) ≠ [⟨0, 10, 20, 30⟩] := by
  decide

/-- Witness for `spec_c3_fail_palette_unchanged` at a concrete failing run. -/
theorem spec_c3_fail_palette_unchanged_witness :
    (analyze svcSecondFails stGenFail).store.palette = stGenFail.palette :=
  spec_c3_fail_palette_unchanged.1 stGenFail svcSecondFails (by decide)

/-- CLAIM C5 (corrected): two 4 MiB tiles do NOT split into two batches —
4 MiB is below the 5 MiB threshold, so the first tile does not close a
batch; both tiles land in one batch, one analyze request is issued, and the
progress sequence is `[100]`.  The original claim (two batches, progress
`[50, 100]`) is refuted by `spec_c5_counterexample`. -/
theorem spec_c5_two_four_mib_tiles :
    mkBatches [fourMiB, fourMiB] = [[fourMiB, fourMiB]] ∧
    (analyze svcTwoTile stTwoTile).requests = 1 ∧
    (analyze svcTwoTile stTwoTile).progressLog = [100] ∧
    (analyze svcTwoTile stTwoTile).ok = true := by
  decide

/-- CLAIM C5, original refuted: the two 4 MiB tiles produce one batch, not
`[[tile0], [tile1]]`; one request, not two; progress `[100]`, not
`[50, 100]`. -/
theorem spec_c5_counterexample :
    mkBatches [fourMiB, fourMiB] ≠ [[fourMiB], [fourMiB]] ∧
    (analyze svcTwoTile stTwoTile).requests ≠ 2 ∧
    (analyze svcTwoTile stTwoTile).progressLog ≠ [50, 100] := by
  decide

/-- CLAIM C8 (confirmed): with a main image, a non-empty tile set and an
empty palette, `handleGenerate` runs the analyze pipeline first; if the
pipeline fails, no generate request is ever sent, the error is surfaced,
and the prior Result (url and blob) is left untouched; the generate request
is sent exactly when the pipeline succeeds, and then it runs against the
palette the pipeline populated. -/
theorem spec_c8_generate_after_analyze (st : Store) (svc : Nat → Option (List PaletteEntry))
    (gresp : Option Nat) (u : Nat)
    (hm : st.mainImageFile ≠ none) (ht : st.subImageFiles ≠ []) (hp : st.palette = []) :
    ((analyze svc st).ok = false →
      (handleGenerate svc gresp u st).sent = false ∧
      (handleGenerate svc gresp u st).errored = true ∧
      (handleGenerate svc gresp u st).store.resultUrl = st.resultUrl ∧
      (handleGenerate svc gresp u st).store.resultBlob = st.resultBlob) ∧
    ((analyze svc st).ok = true →
      (handleGenerate svc gresp u st).sent = true ∧
      (handleGenerate svc gresp u st).store.palette = (analyze svc st).store.palette) := by
  have h1 : st.mainImageFile.isNone = false := by
    cases hmx : st.mainImageFile with
    | none => exact absurd hmx hm
    | some v => rfl
  have h2 : st.subImageFiles.isEmpty = false := by
    cases hte : st.subImageFiles with
    | nil => exact absurd hte ht
    | cons a l => rfl
  have h3 : st.palette.isEmpty = true := by rw [hp]; rfl
  have hres := analyze_untouched_fields svc st
  constructor
  · intro hfail
    simp [handleGenerate, h1, h2, h3, hfail, hres.1, hres.2.1]
  · intro hok
    cases gresp with
    | none => simp [handleGenerate, h1, h2, h3, hok]
    | some blob => simp [handleGenerate, h1, h2, h3, hok]

/-- Witness for `spec_c8_generate_after_analyze`: a ready store with a
successful pipeline and generate response. -/
theorem spec_c8_generate_after_analyze_witness :
    (handleGenerate svcTwoTile (some 77) 0 stGenReady).sent = true ∧
    (handleGenerate svcTwoTile (some 77) 0 stGenReady).store.palette
      = (analyze svcTwoTile stGenReady).store.palette :=
  (spec_c8_generate_after_analyze stGenReady svcTwoTile (some 77) 0
    (by decide) (by decide) rfl).2 (by decide)

/-- CLAIM C9 (confirmed): when a batch request fails during the analyze run
triggered by `handleGenerate`, the store's `isAnalyzing` flag remains true
after the run aborts — `analyze` sets it true at entry and only resets it on
the all-batches-succeed path, and the caller's `finally` clears only
`isGenerating` — so the combined busy predicate stays true. -/
theorem spec_c9_busy_stuck_after_fail (st : Store) (svc : Nat → Option (List PaletteEntry))
    (gresp : Option Nat) (u : Nat)
    (hm : st.mainImageFile ≠ none) (ht : st.subImageFiles ≠ []) (hp : st.palette = [])
    (hfail : (analyze svc st).ok = false) :
    (handleGenerate svc gresp u st).store.isAnalyzing = true ∧
    (handleGenerate svc gresp u st).store.isGenerating = false ∧
    busy (handleGenerate svc gresp u st).store = true := by
  have h1 : st.mainImageFile.isNone = false := by
    cases hmx : st.mainImageFile with
    | none => exact absurd hmx hm
    | some v => rfl
  have h2 : st.subImageFiles.isEmpty = false := by
    cases hte : st.subImageFiles with
    | nil => exact absurd hte ht
    | cons a l => rfl
  have h3 : st.palette.isEmpty = true := by rw [hp]; rfl
  have hstuck := (analyze_fail svc st hfail).2
  have hout : (handleGenerate svc gresp u st).store
      = { (analyze svc st).store with isGenerating := false } := by
    simp [handleGenerate, h1, h2, h3, hfail]
  rw [hout]
  exact ⟨hstuck, rfl, by simp [busy, hstuck]⟩

/-- Witness for `spec_c9_busy_stuck_after_fail`: the 2-batch scenario whose
second batch fails. -/
theorem spec_c9_busy_stuck_after_fail_witness :
    (handleGenerate svcSecondFails (some 0) 0 stGenFail).store.isAnalyzing = true ∧
    (handleGenerate svcSecondFails (some 0) 0 stGenFail).store.isGenerating = false ∧
    busy (handleGenerate svcSecondFails (some 0) 0 stGenFail).store = true :=
  spec_c9_busy_stuck_after_fail stGenFail svcSecondFails (some 0) 0
    (by decide) (by decide) rfl (by decide)

/-! ## Display-handle accounting -/

lemma range_succ_eq (c : Nat) : Multiset.range (c + 1) = Multiset.range c + {c} := by
  rw [Multiset.range_succ, ← Multiset.singleton_add, add_comm]

lemma range_add_alloc (c n : Nat) :
    Multiset.range (c + n)
      = Multiset.range c + (((List.range n).map (c + ·)) : Multiset Nat) := by
  rw [Multiset.range_add]
  congr 1

lemma handleInv_step (a : MAction) (sys : Sys) (h : HandleInv sys) :
    HandleInv (step a sys) := by
  cases a with
  | setMain f =>
    cases f with
    | none =>
      simp only [step, setMainImageFile, HandleInv, handleMS, optMS, Option.toList,
        ← Multiset.coe_add, Multiset.coe_nil] at h ⊢
      rw [← h]
      try abel
    | some v =>
      simp only [step, setMainImageFile, HandleInv, handleMS, optMS, Option.toList,
        ← Multiset.coe_add, Multiset.coe_nil, Multiset.coe_singleton] at h ⊢
      rw [range_succ_eq, ← h]; abel
  | setSubs files =>
    simp only [step, setSubImageFiles, HandleInv, handleMS, optMS, Option.toList,
      ← Multiset.coe_add, Multiset.coe_nil] at h ⊢
    rw [range_add_alloc, ← h]; abel
  | addSubs files =>
    simp only [step, addSubImageFiles, HandleInv, handleMS, optMS, Option.toList,
      ← Multiset.coe_add, Multiset.coe_nil] at h ⊢
    rw [range_add_alloc, ← h]; abel
  | clearSubs =>
    simp only [step, clearSubImages, HandleInv, handleMS, optMS, Option.toList,
      ← Multiset.coe_add, Multiset.coe_nil] at h ⊢
    rw [← h]
    try abel
  | setRes b =>
    simp only [step, setResult, HandleInv, handleMS, optMS, Option.toList,
      ← Multiset.coe_add, Multiset.coe_nil, Multiset.coe_singleton] at h ⊢
    rw [range_succ_eq, ← h]; abel
  | resetAll =>
    simp only [step, resetSession, HandleInv, handleMS, optMS, Option.toList,
      ← Multiset.coe_add, Multiset.coe_nil] at h ⊢
    rw [← h]
    try abel

lemma handleInv_run (acts : List MAction) : HandleInv (run acts) := by
  suffices hall : ∀ sys, HandleInv sys →
      HandleInv (acts.foldl (fun s a => step a s) sys) by
    exact hall initSys rfl
  induction acts with
  | nil => intro sys h; simpa using h
  | cons a rest ih => intro sys h; exact ih _ (handleInv_step a sys h)

lemma handleInv_nodup_parts (sys : Sys) (h : HandleInv sys) :
    sys.revoked.Nodup ∧ ∀ x ∈ handleMS sys.store, x ∉ sys.revoked := by
  have hnd : (handleMS sys.store + (sys.revoked : Multiset Nat)
      + (sys.leaked : Multiset Nat)).Nodup := by
    rw [h]; exact Multiset.nodup_range _
  have h1 : (handleMS sys.store + (sys.revoked : Multiset Nat)).Nodup :=
    Multiset.nodup_of_le (self_le_add_right _ _) hnd
  rw [Multiset.nodup_add] at h1
  refine ⟨Multiset.coe_nodup.mp h1.2.1, fun x hx hxr => ?_⟩
  exact Multiset.disjoint_left.mp h1.2.2 hx (Multiset.mem_coe.mpr hxr)

/-- CLAIM C2 (corrected): over every sequence of the six handle-mutating
store actions, no handle is ever released twice and no handle the store
references has been revoked; however the live handles are NOT exactly those
the state implies — `setMainImageFile` (non-null) and `setSubImageFiles`
null the result without revoking its handle, so orphaned former Result
handles can exist (refuted by `spec_c2_counterexample`).  What does hold is
exact conservation: every allocated handle is exactly one of referenced,
revoked, or dropped-unrevoked at those two sites (the `leaked` ghost log). -/
theorem spec_c2_handle_accounting (acts : List MAction) :
    HandleInv (run acts) ∧ (run acts).revoked.Nodup ∧
    ∀ x ∈ handleMS (run acts).store, x ∉ (run acts).revoked := by
  have h := handleInv_run acts
  have h2 := handleInv_nodup_parts (run acts) h
  exact ⟨h, h2.1, h2.2⟩

/-- CLAIM C2, original refuted: after `setResult` then `setMainImageFile`
with a new file, handle 0 (the old result URL) is allocated, never revoked,
yet referenced nowhere in the store — an orphaned (leaked) handle. -/
theorem spec_c2_counterexample :
    ¬ claimedHandleInv (run [MAction.setRes 5, MAction.setMain (some 7)]) := by
  intro hinv
  have h0 := (hinv.1 0).mp ⟨by decide, by decide⟩
  exact absurd h0 (by decide)

/-- Witness for `spec_c2_handle_accounting` at a concrete run and handle. -/
theorem spec_c2_handle_accounting_witness :
    (0 : Nat) ∉ (run [MAction.setRes 5]).revoked :=
  (spec_c2_handle_accounting [MAction.setRes 5]).2.2 0 (by decide)

/-- CLAIM C6 (corrected): `addSubImageFiles` appends the new files to the
tile set in order and clears Palette and Preview, leaving MainImage
untouched — but it does NOT clear Result: both the result URL and blob
survive the append (the original claim that Result is invalidated is
refuted by `spec_c6_counterexample`). -/
theorem spec_c6_append_invalidation (sys : Sys) (files : List Nat) (hne : files ≠ []) :
    (addSubImageFiles files sys).store.subImageFiles
      = sys.store.subImageFiles ++ files ∧
    (addSubImageFiles files sys).store.palette = [] ∧
    (addSubImageFiles files sys).store.previewData = none ∧
    (addSubImageFiles files sys).store.mainImageFile = sys.store.mainImageFile ∧
    (addSubImageFiles files sys).store.mainImagePreviewUrl
      = sys.store.mainImagePreviewUrl ∧
    (addSubImageFiles files sys).store.resultUrl = sys.store.resultUrl ∧
    (addSubImageFiles files sys).store.resultBlob = sys.store.resultBlob := by
  simp [addSubImageFiles]

/-- CLAIM C6, original refuted: appending a tile to a store holding a
Result leaves both result fields set — Result is not invalidated. -/
theorem spec_c6_counterexample :
    (addSubImageFiles [1] (run [MAction.setRes 3])).store.resultUrl = some 0 ∧
    (addSubImageFiles [1] (run [MAction.setRes 3])).store.resultBlob = some 3 ∧
    (some 0 : Option Nat) ≠ none := by
  decide

/-- Witness for `spec_c6_append_invalidation` at a concrete state. -/
theorem spec_c6_append_invalidation_witness :
    (addSubImageFiles [5] (run [MAction.setRes 3])).store.subImageFiles
      = (run [MAction.setRes 3]).store.subImageFiles ++ [5] ∧
    (addSubImageFiles [5] (run [MAction.setRes 3])).store.palette = [] ∧
    (addSubImageFiles [5] (run [MAction.setRes 3])).store.previewData = none ∧
    (addSubImageFiles [5] (run [MAction.setRes 3])).store.mainImageFile
      = (run [MAction.setRes 3]).store.mainImageFile ∧
    (addSubImageFiles [5] (run [MAction.setRes 3])).store.mainImagePreviewUrl
      = (run [MAction.setRes 3]).store.mainImagePreviewUrl ∧
    (addSubImageFiles [5] (run [MAction.setRes 3])).store.resultUrl
      = (run [MAction.setRes 3]).store.resultUrl ∧
    (addSubImageFiles [5] (run [MAction.setRes 3])).store.resultBlob
      = (run [MAction.setRes 3]).store.resultBlob :=
  spec_c6_append_invalidation (run [MAction.setRes 3]) [5] (by decide)

/-- CLAIM C7 (corrected): `setMainImageFile(null)` revokes the prior
main-image handle and clears MainImage without allocating a handle — but,
unlike the non-null replacement path, it leaves Preview and Result (and the
result handle) completely untouched; the original claim that the null path
clears Preview and Result like the replacement path does is refuted by
`spec_c7_counterexample`. -/
theorem spec_c7_clear_main_leaves_rest (sys : Sys) :
    (setMainImageFile none sys).store.mainImageFile = none ∧
    (setMainImageFile none sys).store.mainImagePreviewUrl = none ∧
    (setMainImageFile none sys).counter = sys.counter ∧
    (setMainImageFile none sys).revoked
      = sys.revoked ++ sys.store.mainImagePreviewUrl.toList ∧
    (setMainImageFile none sys).store.previewData = sys.store.previewData ∧
    (setMainImageFile none sys).store.resultUrl = sys.store.resultUrl ∧
    (setMainImageFile none sys).store.resultBlob = sys.store.resultBlob := by
  simp [setMainImageFile]

/-- CLAIM C7, original refuted: clearing the main image with null leaves a
present Result fully in place. -/
theorem spec_c7_counterexample :
    (setMainImageFile none (run [MAction.setRes 3])).store.resultUrl = some 0 ∧
    (setMainImageFile none (run [MAction.setRes 3])).store.resultBlob = some 3 ∧
    ¬ ((some 0 : Option Nat) = none ∧ (some 3 : Option Nat) = none) := by
  decide

/-- CLAIM C10 (confirmed): from any reachable state holding a Result,
`setSubImageFiles` nulls `resultUrl` but leaves `resultBlob` at its prior
non-null value and does not revoke the old result URL; in the resulting
mixed state `handleDownload` still downloads the stale blob. -/
theorem spec_c10_stale_result_blob (acts : List MAction) (files : List Nat) (u b : Nat)
    (hu : (run acts).store.resultUrl = some u)
    (hb : (run acts).store.resultBlob = some b) :
    (setSubImageFiles files (run acts)).store.resultUrl = none ∧
    (setSubImageFiles files (run acts)).store.resultBlob = some b ∧
    u ∉ (setSubImageFiles files (run acts)).revoked ∧
    handleDownload (setSubImageFiles files (run acts)).store = some b := by
  have hinv := handleInv_run acts
  have hnd : (handleMS (run acts).store + ((run acts).revoked : Multiset Nat)
      + ((run acts).leaked : Multiset Nat)).Nodup := by
    rw [hinv]; exact Multiset.nodup_range _
  have humem : u ∈ handleMS (run acts).store := by
    simp [handleMS, optMS, hu]
  have h1 : (handleMS (run acts).store + ((run acts).revoked : Multiset Nat)).Nodup :=
    Multiset.nodup_of_le (self_le_add_right _ _) hnd
  rw [Multiset.nodup_add] at h1
  have hnrev : u ∉ (run acts).revoked := fun hc =>
    Multiset.disjoint_left.mp h1.2.2 humem (Multiset.mem_coe.mpr hc)
  have hms := h1.1
  rw [handleMS, Multiset.nodup_add] at hms
  have hures : u ∈ optMS (run acts).store.resultUrl := by simp [optMS, hu]
  have hnprev : u ∉ (run acts).store.subImagePreviews := by
    intro hc
    exact Multiset.disjoint_left.mp hms.2.2
      (by exact Multiset.mem_add.mpr (Or.inr (Multiset.mem_coe.mpr hc))) hures
  refine ⟨by simp [setSubImageFiles], by simp [setSubImageFiles, hb],
    ?_, by simp [setSubImageFiles, handleDownload, hb]⟩
  simp only [setSubImageFiles]
  rw [List.mem_append]
  rintro (hc | hc)
  · exact hnrev hc
  · exact hnprev hc

/-- Witness for `spec_c10_stale_result_blob` at a concrete run. -/
theorem spec_c10_stale_result_blob_witness :
    (setSubImageFiles [9] (run [MAction.setRes 5])).store.resultUrl = none ∧
    (setSubImageFiles [9] (run [MAction.setRes 5])).store.resultBlob = some 5 ∧
    (0 : Nat) ∉ (setSubImageFiles [9] (run [MAction.setRes 5])).revoked ∧
    handleDownload (setSubImageFiles [9] (run [MAction.setRes 5])).store = some 5 :=
  spec_c10_stale_result_blob [MAction.setRes 5] [9] 0 5 (by decide) (by decide)
